import Mathlib

/-!
Verification development for the METAR/TAF decoding-and-policy engine.

The engine's JavaScript source (assets/app.js field extractors / scorer /
alert classifier, and the OM policy layer `om_policy.js` exposed as
`window.WXM_OM.computeOmFlags`) is shallowly embedded below.  Report
strings are modelled as Lean `String`s processed as `List Char`; the
JavaScript regular expressions are replaced by explicit position scanners
with the same matching semantics (word boundaries `\b` are tested against
the JS word-character class `[A-Za-z0-9_]`).  JavaScript numbers are
modelled by `Nat`/`Int`/`Rat` (`Math.round`/`Math.floor` on the exact
rational value; the float error of the source never crosses a rounding
boundary on the integer inputs these functions receive), and `Math.sin`
by `Real.sin`.  Absent values (`null`) are modelled by `Option`.
-/

namespace Wxom

/-! ### Character utilities (JS semantics) -/

/-- JS word character class `\w` = `[A-Za-z0-9_]`. -/
def isWordChar (c : Char) : Bool := c.isAlphanum || c = '_'

/-- ASCII upper-casing, modelling `String.prototype.toUpperCase` on the
ASCII reports this engine receives. -/
def upChar (c : Char) : Char :=
  if 'a' ≤ c ∧ c ≤ 'z' then Char.ofNat (c.toNat - 32) else c

def upStr (l : List Char) : List Char := l.map upChar

def strL (s : String) : List Char := s.data

def isUpperAlpha (c : Char) : Bool := 'A' ≤ c && c ≤ 'Z'

/-- Whitespace for the `\s+` token splitter. -/
def isWs (c : Char) : Bool := c = ' ' || c = '\t' || c = '\n' || c = '\r'

/-- Tokenizer: `String(raw).trim().split(/\s+/)` with empty tokens dropped. -/
def toksAux (acc : List Char) : List Char → List (List Char)
  | [] => if acc.isEmpty then [] else [acc.reverse]
  | c :: rest =>
      if isWs c then
        if acc.isEmpty then toksAux [] rest else acc.reverse :: toksAux [] rest
      else toksAux (c :: acc) rest

def toksOf (l : List Char) : List (List Char) := toksAux [] l

/-- Digit-string value, as `parseInt(_, 10)` on an all-digit string. -/
def natOfDigits (l : List Char) : ℕ := l.foldl (fun a c => a * 10 + (c.toNat - 48)) 0

/-! ### Position scanners modelling the JS regexes -/

/-- Pattern `w` occurs in `l` at index `i`. -/
def occursAt (l w : List Char) (i : ℕ) : Bool := w.isPrefixOf (l.drop i)

/-- The character left of position `i` exists and is a word character
(so a `\b` required before a word-character pattern fails there). -/
def wordBefore (l : List Char) (i : ℕ) : Bool :=
  decide (0 < i) && isWordChar ((l.drop (i - 1)).headD ' ')

/-- The character right after an occurrence of `w` at `i` exists and is a
word character (so a trailing `\b` fails there). -/
def wordAfter (l w : List Char) (i : ℕ) : Bool :=
  isWordChar ((l.drop (i + w.length)).headD ' ')

/-- Test for a regex `X\b` (right word boundary only), `X` a literal ending
in a word character. -/
def hasPatRB (l w : List Char) : Bool :=
  (List.range (l.length + 1)).any fun i => occursAt l w i && !(wordAfter l w i)

/-- Test for a regex `\bX\b`, `X` a literal starting and ending in a word
character. -/
def hasPatWB (l w : List Char) : Bool :=
  (List.range (l.length + 1)).any fun i =>
    occursAt l w i && !(wordBefore l i) && !(wordAfter l w i)

/-! ### Heavy-precipitation takeoff-prohibition detection (om_policy.js) -/

/-- Embedding of `heavyPrecipMatches(raw)`: the OM-A 8.3.8.7 token list, with
`+FZRA`/`FZRA` and `+GR`/`GR` reported as in the source (`else if` pairs). -/
def heavyPrecipMatches (raw : String) : List String :=
  let up := upStr raw.data
  (if hasPatRB up (strL "+SN") then ["+SN"] else []) ++
  (if hasPatRB up (strL "+GS") then ["+GS"] else []) ++
  (if hasPatRB up (strL "+SG") then ["+SG"] else []) ++
  (if hasPatRB up (strL "+PL") then ["+PL"] else []) ++
  (if hasPatRB up (strL "+FZRA") then ["+FZRA"]
   else if hasPatWB up (strL "FZRA") then ["FZRA"] else []) ++
  (if hasPatRB up (strL "+GR") then ["+GR"]
   else if hasPatWB up (strL "GR") then ["GR"] else [])

/-- Embedding of `detectHeavyPrecipTOProhib(raw)`. -/
def detectHeavyPrecipTOProhib (raw : String) : Bool :=
  !(heavyPrecipMatches raw).isEmpty

/-- Spec-side reading of "a heavy-precipitation token from
{+SN, +GS, +SG, +PL, FZRA, +FZRA, GR, +GR} occurs in the text". -/
def heavyTokenOccurs (raw : String) : Bool :=
  let up := upStr raw.data
  hasPatRB up (strL "+SN") || hasPatRB up (strL "+GS") ||
  hasPatRB up (strL "+SG") || hasPatRB up (strL "+PL") ||
  hasPatWB up (strL "FZRA") || hasPatRB up (strL "+FZRA") ||
  hasPatWB up (strL "GR") || hasPatRB up (strL "+GR")

/-- Substring containment, modelling `String.prototype.includes`. -/
def containsSub (t n : List Char) : Bool :=
  (List.range (t.length + 1)).any fun i => n.isPrefixOf (t.drop i)

/-! ### Visibility extractor (app.js `parseVisibilityMeters` and
`extractAllVisibilityMetersFromTAF`) -/

/-- Statute mile in meters, the source's literal `1609.34`. -/
def mileM : ℚ := 160934 / 100

/-- JS `Math.round` for the nonnegative values produced here (half rounds up). -/
def jsRoundQ (q : ℚ) : ℤ := ⌊q + 1 / 2⌋

def roundMi (q : ℚ) : ℕ := (jsRoundQ (q * mileM)).toNat

/-- Strip one leading `M` (the `M?` of the statute-mile token patterns). -/
def stripLeadM (t : List Char) : List Char :=
  if t.head? = some 'M' then t.tail else t

/-- Shape test and capture for `^M?\d+\/\d+SM$` (fractional statute miles). -/
def fracSMShape (t : List Char) : Option (ℕ × ℕ) :=
  let t1 := stripLeadM t
  let ds := t1.takeWhile Char.isDigit
  let r2 := t1.dropWhile Char.isDigit
  if ds.isEmpty then none
  else
    match r2 with
    | '/' :: r3 =>
      let bs := r3.takeWhile Char.isDigit
      let r4 := r3.dropWhile Char.isDigit
      if bs.isEmpty then none
      else if r4 = ['S', 'M'] then some (natOfDigits ds, natOfDigits bs) else none
    | _ => none

/-- Shape test for `^\d{4}\/\d{4}$` (TAF validity / time range tokens). -/
def timeRangeShape : List Char → Bool
  | [a, b, c, d, s, e, f, g, h] =>
      a.isDigit && b.isDigit && c.isDigit && d.isDigit && s = '/' &&
      e.isDigit && f.isDigit && g.isDigit && h.isDigit
  | _ => false

/-- Shape test for `^R\d{2}[LRC]?\/` (RVR group start). -/
def rvrStartShape : List Char → Bool
  | r0 :: d1 :: d2 :: rest =>
      r0 = 'R' && d1.isDigit && d2.isDigit &&
      (match rest with
       | c :: r2 =>
         if c = 'L' || c = 'R' || c = 'C' then r2.head? = some '/' else c = '/'
       | [] => false)
  | _ => false

/-- Shape test for `^\d{4}(?:[A-Z]{1,4})?$` (ICAO visibility token, with an
optional suffix such as `NDV`). -/
def vis4Shape : List Char → Bool
  | a :: b :: c :: d :: rest =>
      a.isDigit && b.isDigit && c.isDigit && d.isDigit &&
      rest.all isUpperAlpha && decide (rest.length ≤ 4)
  | _ => false

/-- Shape test and capture for `^P\d+SM$`. -/
def pSMShape (t : List Char) : Option ℕ :=
  match t with
  | 'P' :: r =>
    let ds := r.takeWhile Char.isDigit
    if ds.isEmpty then none
    else if r.dropWhile Char.isDigit = ['S', 'M'] then some (natOfDigits ds) else none
  | _ => none

/-- Shape test and capture for `^M?\d+SM$`. -/
def mSMShape (t : List Char) : Option ℕ :=
  let t1 := stripLeadM t
  let ds := t1.takeWhile Char.isDigit
  if ds.isEmpty then none
  else if t1.dropWhile Char.isDigit = ['S', 'M'] then some (natOfDigits ds) else none

/-- Value of one (upper-cased) token in the visibility scan, following the
source's branch order: single-token statute-mile fraction, then exclusion of
time ranges, RVR groups and all other `/`-containing tokens, then the 4-digit
meters token (9999 ↦ 10000), then `P#SM` and `M?#SM`. -/
def visTokVal (t : List Char) : Option ℕ :=
  match fracSMShape t with
  | some (a, b) => if b ≠ 0 then some (roundMi ((a : ℚ) / (b : ℚ))) else none
  | none =>
    if timeRangeShape t then none
    else if rvrStartShape t then none
    else if t.contains '/' then none
    else if vis4Shape t then
      let v := natOfDigits (t.take 4)
      some (if v = 9999 then 10000 else v)
    else
      match pSMShape t with
      | some n => some (roundMi (n : ℚ))
      | none =>
        match mSMShape t with
        | some n => some (roundMi (n : ℚ))
        | none => none

def allDigits (t : List Char) : Bool := !t.isEmpty && t.all Char.isDigit

/-- Split statute-mile form: an all-digit token followed by a fraction-SM
token with nonzero denominator, e.g. `1 1/2SM` (the source consumes both
tokens and adds `whole + a/b` miles). -/
def splitSMVal (t u : List Char) : Option ℕ :=
  if allDigits t then
    match fracSMShape u with
    | some (a, b) =>
        if b ≠ 0 then some (roundMi ((natOfDigits t : ℚ) + (a : ℚ) / (b : ℚ))) else none
    | none => none
  else none

/-- Token scan of `extractAllVisibilityMetersFromTAF` (collects every
qualifying value, in order). -/
def visValsScan : List (List Char) → List ℕ
  | [] => []
  | [t0] =>
    (match visTokVal (upStr t0) with | some v => [v] | none => [])
  | t0 :: t1 :: rest2 =>
    match splitSMVal (upStr t0) (upStr t1) with
    | some v => v :: visValsScan rest2
    | none =>
      match visTokVal (upStr t0) with
      | some v => v :: visValsScan (t1 :: rest2)
      | none => visValsScan (t1 :: rest2)

/-- Option-valued minimum accumulator (`best = best==null ? m : min(best,m)`). -/
def minO : Option ℕ → Option ℕ → Option ℕ
  | some x, some y => some (min x y)
  | some x, none => some x
  | none, y => y

/-- Minimum of a list of naturals, `none` when empty. -/
def minN? : List ℕ → Option ℕ
  | [] => none
  | v :: rest => some (match minN? rest with | some m => min v m | none => v)

/-- Maximum of a list of naturals, `none` when empty. -/
def maxN? : List ℕ → Option ℕ
  | [] => none
  | v :: rest => some (match maxN? rest with | some m => max v m | none => v)

/-- Token scan of `parseVisibilityMeters` (tracks the running minimum). -/
def visMinScan : List (List Char) → Option ℕ
  | [] => none
  | [t0] => visTokVal (upStr t0)
  | t0 :: t1 :: rest2 =>
    match splitSMVal (upStr t0) (upStr t1) with
    | some v => minO (some v) (visMinScan rest2)
    | none => minO (visTokVal (upStr t0)) (visMinScan (t1 :: rest2))

/-- Embedding of `parseVisibilityMeters(raw)`: `CAVOK` short-circuits to
10000, otherwise the minimum over the token scan. -/
def parseVisibilityMeters (raw : String) : Option ℕ :=
  if raw = "" then none
  else if hasPatWB raw.data (strL "CAVOK") then some 10000
  else visMinScan (toksOf raw.data)

/-- Embedding of `extractAllVisibilityMetersFromTAF(raw)`: `CAVOK`
contributes 10000 and the whole multi-group text is scanned. -/
def extractAllVisibilityMetersFromTAF (raw : String) : List ℕ :=
  if raw = "" then []
  else (if hasPatWB raw.data (strL "CAVOK") then [10000] else []) ++
       visValsScan (toksOf raw.data)

/-! ### RVR extractor (app.js `extractRvrMeters`) -/

/-- Consume exactly `n` digits, returning their value and the rest. -/
def eatDigitsVal (n : ℕ) (l : List Char) : Option (ℕ × List Char) :=
  if (l.take n).length = n && (l.take n).all Char.isDigit then
    some (natOfDigits (l.take n), l.drop n)
  else none

/-- Match the tail `([UDN])?(FT)?\b` of an RVR group, in greedy backtracking
order; returns whether `FT` was consumed and the remainder after the match. -/
def rvrFinish (l : List Char) : Option (Bool × List Char) :=
  let ok : List Char → Bool := fun r => !(isWordChar (r.headD ' '))
  let cands : List (Bool × List Char) :=
    (match l with
     | c :: r =>
       if c = 'U' || c = 'D' || c = 'N' then
         (match r with
          | 'F' :: 'T' :: r2 => [(true, r2), (false, r)]
          | _ => [(false, r)])
       else []
     | [] => []) ++
    (match l with
     | 'F' :: 'T' :: r2 => [(true, r2)]
     | _ => []) ++ [(false, l)]
  cands.find? fun p => ok p.2

/-- Match one RVR group
`R\d{2}[LRC]?\/([PM]?)(\d{4})(?:V([PM]?)(\d{4}))?([UDN])?(FT)?\b`
at the head of `s`; returns `(v1, v2?, isFt, rest after the match)`. -/
def rvrAt (s : List Char) : Option (ℕ × Option ℕ × Bool × List Char) :=
  match s with
  | 'R' :: r1 =>
    match eatDigitsVal 2 r1 with
    | none => none
    | some (_, r2) =>
      let r3 := match r2 with
        | c :: rr => if c = 'L' || c = 'R' || c = 'C' then rr else r2
        | [] => r2
      match r3 with
      | '/' :: r4 =>
        let r5 := match r4 with
          | c :: rr => if c = 'P' || c = 'M' then rr else r4
          | [] => r4
        match eatDigitsVal 4 r5 with
        | none => none
        | some (v1, r6) =>
          let withV : Option (ℕ × List Char) :=
            match r6 with
            | 'V' :: r7 =>
              let r8 := match r7 with
                | c :: rr => if c = 'P' || c = 'M' then rr else r7
                | [] => r7
              eatDigitsVal 4 r8
            | _ => none
          match withV with
          | some (v2, r9) =>
            (match rvrFinish r9 with
             | some (ft, rest) => some (v1, some v2, ft, rest)
             | none =>
               match rvrFinish r6 with
               | some (ft, rest) => some (v1, none, ft, rest)
               | none => none)
          | none =>
            match rvrFinish r6 with
            | some (ft, rest) => some (v1, none, ft, rest)
            | none => none
      | _ => none
  | _ => none

/-- Global scan for RVR groups (the `g`-flag `exec` loop): at each position
with no word character on the left, try `rvrAt`; on a match, resume after it. -/
def rvrScanAux (l : List Char) : ℕ → ℕ → List (ℕ × Option ℕ × Bool)
  | 0, _ => []
  | fuel + 1, i =>
    if i < l.length then
      if !(wordBefore l i) then
        match rvrAt (l.drop i) with
        | some (v1, v2, ft, rest) => (v1, v2, ft) :: rvrScanAux l fuel (l.length - rest.length)
        | none => rvrScanAux l fuel (i + 1)
      else rvrScanAux l fuel (i + 1)
    else []

def rvrScan (l : List Char) : List (ℕ × Option ℕ × Bool) :=
  rvrScanAux l (l.length + 1) 0

/-- Feet-to-meters conversion used for `FT`-suffixed groups,
`Math.round(x * 0.3048)`. -/
def ftToM (v : ℕ) : ℕ := (jsRoundQ ((v : ℚ) * (3048 / 10000))).toNat

/-- Embedding of `extractRvrMeters(raw)`: each group contributes its value
(and the variability value when present), `FT`-suffixed groups converted
from feet. -/
def extractRvrMeters (raw : String) : List ℕ :=
  (rvrScan raw.data).flatMap fun g =>
    let conv : ℕ → ℕ := fun x => if g.2.2 then ftToM x else x
    conv g.1 :: (match g.2.1 with | some x => [conv x] | none => [])

/-- Embedding of om_policy.js `detectAnyRvr(raw)`:
`/\bR\d{2}[LRC]?\/[PM]?\d{4}/` on the upper-cased text. -/
def detectAnyRvr (raw : String) : Bool :=
  let l := upStr raw.data
  (List.range (l.length + 1)).any fun i =>
    !(wordBefore l i) &&
    (match l.drop i with
     | 'R' :: r1 =>
       (match eatDigitsVal 2 r1 with
        | none => false
        | some (_, r2) =>
          let r3 := match r2 with
            | c :: rr => if c = 'L' || c = 'R' || c = 'C' then rr else r2
            | [] => r2
          match r3 with
          | '/' :: r4 =>
            let r5 := match r4 with
              | c :: rr => if c = 'P' || c = 'M' then rr else r4
              | [] => r4
            (eatDigitsVal 4 r5).isSome
          | _ => false)
     | _ => false)

/-! ### Gust, ceiling, temperature, wind -/

/-- Match `(?:\d{3}|VRB)\d{2,3}G(\d{2,3})KT\b` at the head of `s` (greedy
with backtracking); returns the gust capture and the rest. -/
def gustAt (s : List Char) : Option (ℕ × List Char) :=
  let dirPart : Option (List Char) :=
    match eatDigitsVal 3 s with
    | some (_, r) => some r
    | none =>
      match s with
      | 'V' :: 'R' :: 'B' :: r => some r
      | _ => none
  match dirPart with
  | none => none
  | some r1 =>
    let afterSpd : ℕ → Option (List Char) := fun n => (eatDigitsVal n r1).map (·.2)
    let finishG : List Char → Option (ℕ × List Char) := fun r2 =>
      match r2 with
      | 'G' :: r3 =>
        let tryG : ℕ → Option (ℕ × List Char) := fun m =>
          match eatDigitsVal m r3 with
          | none => none
          | some (g, r4) =>
            match r4 with
            | 'K' :: 'T' :: r5 => if isWordChar (r5.headD ' ') then none else some (g, r5)
            | _ => none
        (tryG 3).orElse fun _ => tryG 2
      | _ => none
    ((afterSpd 3).bind finishG).orElse fun _ => (afterSpd 2).bind finishG

/-- Global scan for gust groups (`extractGustKt`), case-sensitive on the raw
text as in the source. -/
def gustScanAux (l : List Char) : ℕ → ℕ → List ℕ
  | 0, _ => []
  | fuel + 1, i =>
    if i < l.length then
      if !(wordBefore l i) then
        match gustAt (l.drop i) with
        | some (g, rest) => g :: gustScanAux l fuel (l.length - rest.length)
        | none => gustScanAux l fuel (i + 1)
      else gustScanAux l fuel (i + 1)
    else []

def extractGustKt (raw : String) : List ℕ := gustScanAux raw.data (raw.data.length + 1) 0

/-- Embedding of `gustMaxKt(raw)`. -/
def gustMaxKt (raw : String) : Option ℕ := maxN? (extractGustKt raw)

/-- Match `(BKN|OVC|VV)(\d{3})\b` at the head of `s`; returns hundreds of feet
value and the rest. -/
def cigAt (s : List Char) : Option (ℕ × List Char) :=
  let tryP : List Char → Option (ℕ × List Char) := fun p =>
    if p.isPrefixOf s then
      match eatDigitsVal 3 (s.drop p.length) with
      | some (h, r) => if isWordChar (r.headD ' ') then none else some (h, r)
      | none => none
    else none
  ((tryP (strL "BKN")).orElse fun _ => (tryP (strL "OVC")).orElse fun _ => tryP (strL "VV"))

/-- Global scan for ceiling groups (`ceilingFt`), case-sensitive on the raw
text as in the source; result is the lowest `### × 100` feet. -/
def cigScanAux (l : List Char) : ℕ → ℕ → List ℕ
  | 0, _ => []
  | fuel + 1, i =>
    if i < l.length then
      if !(wordBefore l i) then
        match cigAt (l.drop i) with
        | some (h, rest) => h * 100 :: cigScanAux l fuel (l.length - rest.length)
        | none => cigScanAux l fuel (i + 1)
      else cigScanAux l fuel (i + 1)
    else []

def ceilingFt (raw : String) : Option ℕ := minN? (cigScanAux raw.data (raw.data.length + 1) 0)

/-- Match `M?\d{2}` at the head of `s`, `M` meaning negative. -/
def signedTemp2 (s : List Char) : Option (ℤ × List Char) :=
  match s with
  | 'M' :: r => (eatDigitsVal 2 r).map fun p => (-(p.1 : ℤ), p.2)
  | _ => (eatDigitsVal 2 s).map fun p => ((p.1 : ℤ), p.2)

/-- Match `(M?\d{2})\/(M?\d{2})\b` at the head of `s`; the first (temperature)
value is taken. -/
def tempAt (s : List Char) : Option ℤ :=
  match signedTemp2 s with
  | none => none
  | some (t, r1) =>
    match r1 with
    | '/' :: r2 =>
      match signedTemp2 r2 with
      | none => none
      | some (_, r3) => if isWordChar (r3.headD ' ') then none else some t
    | _ => none

/-- Embedding of `parseTempC(raw)` (app.js and om_policy.js carry the same
function): first match of the temperature/dewpoint group wins. -/
def parseTempC (raw : String) : Option ℤ :=
  let l := upStr raw.data
  (List.range (l.length + 1)).findSome? fun i =>
    if wordBefore l i then none else tempAt (l.drop i)

/-- Result of om_policy.js `parseWindKt`. -/
structure Wind where
  dir : Option ℕ
  spd : Option ℕ
  gst : Option ℕ
  deriving Repr, DecidableEq

/-- Match `(\d{3}|VRB)(\d{2,3})(G(\d{2,3}))?KT\b` at the head of `s` (greedy
with backtracking); returns `(dir?, speed, gust?)`. -/
def windAt (s : List Char) : Option (Option ℕ × ℕ × Option ℕ) :=
  let dirPart : Option (Option ℕ × List Char) :=
    match eatDigitsVal 3 s with
    | some (d, r) => some (some d, r)
    | none =>
      match s with
      | 'V' :: 'R' :: 'B' :: r => some (none, r)
      | _ => none
  match dirPart with
  | none => none
  | some (d, r1) =>
    let finish : ℕ → List Char → Option (ℕ × Option ℕ) := fun sp r2 =>
      let noG : Option (ℕ × Option ℕ) :=
        match r2 with
        | 'K' :: 'T' :: r5 => if isWordChar (r5.headD ' ') then none else some (sp, none)
        | _ => none
      let withG : Option (ℕ × Option ℕ) :=
        match r2 with
        | 'G' :: r3 =>
          let tryG : ℕ → Option (ℕ × Option ℕ) := fun m =>
            match eatDigitsVal m r3 with
            | none => none
            | some (g, r4) =>
              match r4 with
              | 'K' :: 'T' :: r5 =>
                if isWordChar (r5.headD ' ') then none else some (sp, some g)
              | _ => none
          (tryG 3).orElse fun _ => tryG 2
        | _ => none
      withG.orElse fun _ => noG
    let trySpd : ℕ → Option (ℕ × Option ℕ) := fun n =>
      match eatDigitsVal n r1 with
      | none => none
      | some (sp, r2) => finish sp r2
    match (trySpd 3).orElse fun _ => trySpd 2 with
    | none => none
    | some (sp, g) => some (d, sp, g)

/-- Embedding of om_policy.js `parseWindKt(raw)` (first match on the
upper-cased text). -/
def parseWindKt (raw : String) : Wind :=
  let l := upStr raw.data
  match (List.range (l.length + 1)).findSome? (fun i =>
      if wordBefore l i then none else windAt (l.drop i)) with
  | some (d, sp, g) => ⟨d, some sp, g⟩
  | none => ⟨none, none, none⟩

/-! ### Hazard flags (app.js `hazardFlags`) -/

structure Hz where
  fzfg : Bool
  fg : Bool
  br : Bool
  blsn : Bool
  sn : Bool
  ra : Bool
  ts : Bool
  cb : Bool
  va : Bool
  fzra : Bool
  fzdz : Bool
  gr : Bool
  pl : Bool
  gs : Bool
  sg : Bool
  heavySn : Bool
  heavyFzra : Bool
  heavyHail : Bool
  deriving Repr, DecidableEq

def noHz : Hz :=
  ⟨false, false, false, false, false, false, false, false, false,
   false, false, false, false, false, false, false, false, false⟩

def headerToks : List (List Char) :=
  [strL "METAR", strL "SPECI", strL "TAF", strL "AUTO",
   strL "COR", strL "AMD", strL "CNL", strL "NIL"]

/-- Strip leading report-type header tokens and the following 4-letter ICAO
station identifier, as the source does before hazard scanning. -/
def stripHeaderIcao : List (List Char) → List (List Char)
  | [] => []
  | t :: rest =>
    if headerToks.contains t then stripHeaderIcao rest
    else if t.length = 4 && t.all isUpperAlpha then rest
    else t :: rest

/-- The source's weather-token filter: non-empty, no `/`, no digit, not a
wind unit suffix, length at most 12. -/
def wxTokOk (t : List Char) : Bool :=
  !t.isEmpty && !(t.contains '/') && !(t.any Char.isDigit) &&
  !((strL "KT").isSuffixOf t) && !((strL "MPS").isSuffixOf t) &&
  decide (t.length ≤ 12)

/-- Thunderstorm token test: starts with optionally signed `TS`. -/
def tsStart (t : List Char) : Bool :=
  (strL "TS").isPrefixOf t ||
  (match t with
   | '+' :: r => (strL "TS").isPrefixOf r
   | '-' :: r => (strL "TS").isPrefixOf r
   | _ => false)

def vctsStart (t : List Char) : Bool := (strL "VCTS").isPrefixOf t

/-- Match `(?:FEW|SCT|BKN|OVC|VV)\d{3}(?:CB|TCU)\b` at the head of `s`. -/
def cloudCbAt (s : List Char) : Bool :=
  ([strL "FEW", strL "SCT", strL "BKN", strL "OVC", strL "VV"]).any fun p =>
    if p.isPrefixOf s then
      match eatDigitsVal 3 (s.drop p.length) with
      | some (_, r) =>
        (match r with
         | 'C' :: 'B' :: r2 => !(isWordChar (r2.headD ' '))
         | _ => false) ||
        (match r with
         | 'T' :: 'C' :: 'U' :: r2 => !(isWordChar (r2.headD ' '))
         | _ => false)
      | none => false
    else false

def hasCloudCb (l : List Char) : Bool :=
  (List.range (l.length + 1)).any fun i => !(wordBefore l i) && cloudCbAt (l.drop i)

/-- Embedding of `hazardFlags(raw)`. -/
def hazardFlags (raw : String) : Hz :=
  if raw = "" then noHz
  else
    let upAll := upStr raw.data
    let toks := stripHeaderIcao (toksOf upAll)
    let core := List.intercalate [' '] toks
    let wx := toks.filter wxTokOk
    let hasWx : List Char → Bool := fun n => wx.any fun t => containsSub t n
    let cb := hasCloudCb core || hasPatWB core (strL "CB") || hasPatWB core (strL "TCU") ||
              hasWx (strL "CB") || hasWx (strL "TCU")
    let va := hasPatWB core (strL "VA")
    let fzra := hasPatWB core (strL "FZRA") || hasWx (strL "FZRA")
    let fzdz := hasPatWB core (strL "FZDZ") || hasWx (strL "FZDZ")
    let gr := hasPatWB core (strL "GR") || hasWx (strL "GR")
    let pl := hasPatWB core (strL "PL") || hasWx (strL "PL")
    let gs := hasPatWB core (strL "GS") || hasWx (strL "GS")
    let sg := hasPatWB core (strL "SG") || hasWx (strL "SG")
    let heavySn := hasPatRB core (strL "+SN") || hasWx (strL "+SN")
    let heavyFzra := hasPatRB core (strL "+FZRA") || hasPatWB core (strL "FZRA")
    let heavyHail := hasPatRB core (strL "+GR") || hasPatWB core (strL "GR")
    let ts := wx.any tsStart || wx.any vctsStart
    { fzfg := hasPatWB core (strL "FZFG")
      fg := hasPatWB core (strL "FG") || hasWx (strL "FG")
      br := hasPatWB core (strL "BR") || hasWx (strL "BR")
      blsn := hasPatWB core (strL "BLSN") || hasWx (strL "BLSN")
      sn := hasPatWB core (strL "SN") || hasPatWB core (strL "SHSN") ||
            hasPatWB core (strL "BLSN") || hasWx (strL "SN")
      ra := hasPatWB core (strL "RA") || hasPatWB core (strL "DZ") ||
            hasWx (strL "RA") || hasWx (strL "DZ")
      ts := ts
      cb := cb
      va := va
      fzra := fzra, fzdz := fzdz, gr := gr, pl := pl, gs := gs, sg := sg
      heavySn := heavySn, heavyFzra := heavyFzra, heavyHail := heavyHail }

/-! ### Severity scorer and alert classifier (app.js) -/

structure ScoreBundle where
  vis : Option ℕ
  rvrMin : Option ℕ
  cig : Option ℕ
  hz : Hz
  tempC : Option ℤ
  gustMax : Option ℕ
  score : ℕ
  deriving Repr, DecidableEq

/-- Embedding of `computeScores(raw)`: additive per-report severity score,
capped at 100. -/
def computeScores (raw : String) : ScoreBundle :=
  let vis := parseVisibilityMeters raw
  let rvrMin := minN? (extractRvrMeters raw)
  let cig := ceilingFt raw
  let hz := hazardFlags raw
  let tempC := parseTempC raw
  let gustMax := gustMaxKt raw
  let visPts : ℕ :=
    match vis with
    | none => 0
    | some v =>
      if v ≤ 150 then 35 else if v ≤ 175 then 30 else if v ≤ 250 then 26
      else if v ≤ 300 then 24 else if v ≤ 500 then 18 else if v ≤ 550 then 16
      else if v ≤ 800 then 12 else 0
  let rvrPts : ℕ :=
    match rvrMin with
    | none => 0
    | some r =>
      if r ≤ 75 then 28 else if r ≤ 200 then 22 else if r ≤ 300 then 18
      else if r ≤ 500 then 12 else 0
  let cigPts : ℕ :=
    match cig with
    | none => 0
    | some c => if c < 500 then 22 else if c < 800 then 12 else 0
  let wxPts : ℕ :=
    (if hz.ts then 22 else 0) + (if hz.cb then 12 else 0) +
    (if hz.fzfg then 18 else 0) + (if hz.fg then 14 else 0) +
    (if hz.sn then 10 else 0) + (if hz.ra then 8 else 0) +
    (if hz.br then 6 else 0)
  let gustPts : ℕ :=
    match gustMax with
    | none => 0
    | some g => if 40 ≤ g then 10 else if 30 ≤ g then 6 else if 25 ≤ g then 4 else 0
  let score := min 100 (visPts + rvrPts + cigPts + wxPts + gustPts)
  ⟨vis, rvrMin, cig, hz, tempC, gustMax, score⟩

inductive Alert
  | OK
  | MED
  | HIGH
  | CRIT
  deriving Repr, DecidableEq

/-- Embedding of `alertFromScore(score)`. -/
def alertFromScore (s : ℕ) : Alert :=
  if 70 ≤ s then .CRIT else if 45 ≤ s then .HIGH else if 20 ≤ s then .MED else .OK

/-- The engine-ice-ops condition from `deriveStation`: METAR visibility of at
most 150 m together with freezing fog. -/
def engIceOps (met : ScoreBundle) : Bool :=
  match met.vis with
  | some v => decide (v ≤ 150) && met.hz.fzfg
  | none => false

/-- The TAF discount from `deriveStation`, `Math.floor(taf.score * 0.85)`. -/
def tafDiscount (s : ℕ) : ℕ := (⌊(s : ℚ) * (85 / 100 : ℚ)⌋).toNat

/-- Combined per-station severity score before pillar escalation, as computed
in `deriveStation`: `max(met.score, floor(taf.score*0.85))`, forced to 100
under engine-ice ops. -/
def severityBase (metarRaw tafRaw : String) : ℕ :=
  let met := computeScores metarRaw
  let taf := computeScores tafRaw
  let s0 := max met.score (tafDiscount taf.score)
  if engIceOps met then 100 else s0

/-- The base alert of `deriveStation`, before the wind/snow pillar maxima. -/
def baseAlert (metarRaw tafRaw : String) : Alert :=
  alertFromScore (severityBase metarRaw tafRaw)

/-! ### Runway condition inference (om_policy.js `inferRunwayCondition`) -/

inductive RwyCond
  | DRY
  | WET
  | CONTAM
  | SEVERE
  deriving Repr, DecidableEq

structure CondInfo where
  cond : RwyCond
  rwyccEst : ℕ
  deriving Repr, DecidableEq

/-- The concatenated upper-cased METAR/TAF text the source scans. -/
def upCat (metarRaw tafRaw : String) : List Char :=
  upStr (metarRaw ++ " " ++ tafRaw).data

def severePresent (up : List Char) : Bool :=
  hasPatWB up (strL "FZRA") || hasPatWB up (strL "FZDZ") ||
  hasPatWB up (strL "PL") || hasPatWB up (strL "GR")

def snowPresent (up : List Char) : Bool :=
  hasPatWB up (strL "SN") || hasPatWB up (strL "SG") || hasPatWB up (strL "GS") ||
  hasPatWB up (strL "BLSN") || hasPatWB up (strL "DRSN") || hasPatWB up (strL "SHSN")

def wetPresent (up : List Char) : Bool :=
  hasPatWB up (strL "RA") || hasPatWB up (strL "DZ")

/-- Embedding of `inferRunwayCondition(metarRaw, tafRaw)` (the evidence token
list of the source, a pure diagnostic, is not carried). -/
def inferRunwayCondition (metarRaw tafRaw : String) : CondInfo :=
  let up := upCat metarRaw tafRaw
  if severePresent up then ⟨.SEVERE, 2⟩
  else if snowPresent up then ⟨.CONTAM, 3⟩
  else if wetPresent up then ⟨.WET, 5⟩
  else ⟨.DRY, 6⟩

/-- Embedding of `crosswindLimitKt(rwyccEst, narrow)` (OM-B table; no entry
below RWYCC 2). -/
def crosswindLimitKt (rwyccEst : ℕ) (narrow : Bool) : Option ℕ :=
  if 6 ≤ rwyccEst then some (if narrow then 20 else 38)
  else if rwyccEst = 5 then some (if narrow then 20 else 35)
  else if rwyccEst = 4 then some (if narrow then 10 else 20)
  else if rwyccEst = 3 then some (if narrow then 10 else 15)
  else if rwyccEst = 2 then some (if narrow then 5 else 10)
  else none

/-! ### Crosswind geometry (om_policy.js `computeBestCrosswind`) -/

/-- One runway record from runways.json (`name`/`ident`, pure diagnostics,
are not carried; headings are the integer degrees of the data model). -/
structure Runway where
  le_heading : Option ℕ
  he_heading : Option ℕ
  width_m : Option ℚ

def norm360 (d : ℕ) : ℕ := d % 360

/-- Embedding of `angleDiff(a, b)`: absolute difference wrapped to `≤ 180`. -/
def angleDiff (a b : ℕ) : ℕ :=
  let d := ((norm360 a : ℤ) - (norm360 b : ℤ)).natAbs
  if 180 < d then 360 - d else d

noncomputable def toRad (deg : ℕ) : ℝ := (deg : ℝ) * Real.pi / 180

/-- JS `Math.round` over the reals (half rounds up; all values rounded here
are nonnegative). -/
noncomputable def jsRoundR (x : ℝ) : ℤ := ⌊x + 1 / 2⌋

/-- Crosswind component for one runway heading:
`Math.round(usedSpd * Math.abs(Math.sin(toRad(angleDiff(dir, hdg)))))`. -/
noncomputable def xwindVal (usedSpd dir hdg : ℕ) : ℤ :=
  jsRoundR ((usedSpd : ℝ) * |Real.sin (toRad (angleDiff dir hdg))|)

structure Cand where
  x : ℤ
  hdg : ℕ
  width : Option ℚ

def headingsOf (r : Runway) : List ℕ :=
  (match r.le_heading with | some h => [h] | none => []) ++
  (match r.he_heading with | some h => [h] | none => [])

noncomputable def candsOf (usedSpd dir : ℕ) (rwys : List Runway) : List Cand :=
  rwys.flatMap fun r => (headingsOf r).map fun h => ⟨xwindVal usedSpd dir h, h, r.width_m⟩

/-- The source's best-candidate fold: keep the strictly smaller crosswind,
first occurrence winning ties. -/
def pickBest : Option Cand → List Cand → Option Cand
  | b, [] => b
  | none, c :: rest => pickBest (some c) rest
  | some b0, c :: rest => pickBest (if c.x < b0.x then some c else some b0) rest

structure BestX where
  xwind : Option ℤ
  bestHdg : Option ℕ
  bestWidth : Option ℚ
  narrow : Option Bool
  usedSpd : Option ℕ
  windDir : Option ℕ

/-- Embedding of `computeBestCrosswind(windRaw, runwaysForIcao)`. -/
noncomputable def computeBestCrosswind (windRaw : String) (rwys : List Runway) : BestX :=
  let w := parseWindKt windRaw
  match w.dir, w.spd with
  | some dir, some spd =>
    let usedSpd := max spd (w.gst.getD 0)
    if rwys.isEmpty then ⟨none, none, none, none, some usedSpd, some dir⟩
    else
      match pickBest none (candsOf usedSpd dir rwys) with
      | none => ⟨none, none, none, none, some usedSpd, some dir⟩
      | some b =>
        ⟨some b.x, some b.hdg, b.width, b.width.map fun wd => decide (wd < 45),
         some usedSpd, some dir⟩
  | _, _ => ⟨none, none, none, none, none, w.dir⟩

/-! ### OM flag evaluation (om_policy.js `computeOmFlags`) -/

def detectVA (raw : String) : Bool := hasPatWB (upStr raw.data) (strL "VA")

def detectCB (raw : String) : Bool :=
  hasPatRB (upStr raw.data) (strL "CB") || hasPatRB (upStr raw.data) (strL "TCU")

structure OmFlags where
  toProhib : Bool
  tsOrCb : Bool
  heavyPrecip : Bool
  va : Bool
  lvto : Bool
  lvp : Bool
  lvtoQualReq : Bool
  rvr125 : Bool
  rvrRequired : Bool
  cat2Plus : Bool
  cat3Only : Bool
  cat3BelowMin : Bool
  coldcorr : Bool
  xwindExceed : Bool
  xwindKt : Option ℤ
  xwindLimitKt : Option ℕ
  xwindCond : RwyCond
  rwyccEst : ℕ
  noOpsLikely : Bool
  xwindNarrow : Option Bool
  xwindUsedSpdKt : Option ℕ
  xwindWindDir : Option ℕ

/-- The reference visibility of the OM layer: the RVR minimum when present,
else the worst visibility. -/
def refVisOf (worstVis rvrMinAll : Option ℕ) : Option ℕ :=
  match rvrMinAll with
  | some r => some r
  | none => worstVis

/-- Embedding of om_policy.js `computeOmFlags(st, met, taf, worstVis,
rvrMinAll, runwaysMap)`; `rwys` is the runway list looked up for `st.icao`
(`none` when the map has no entry).  The `explain` audit object, a pure
diagnostic, is not carried. -/
noncomputable def computeOmFlags (metarRaw tafRaw : String) (met taf : ScoreBundle)
    (worstVis rvrMinAll : Option ℕ) (rwys : Option (List Runway)) : OmFlags :=
  let obsRaw := if metarRaw ≠ "" then metarRaw else tafRaw
  let tsOrCb := (met.hz.ts || met.hz.cb) || (taf.hz.ts || taf.hz.cb) ||
                detectCB metarRaw || detectCB tafRaw
  let heavy := detectHeavyPrecipTOProhib metarRaw || detectHeavyPrecipTOProhib tafRaw
  let toProhib := heavy
  let va := detectVA metarRaw || detectVA tafRaw
  let refVis := refVisOf worstVis rvrMinAll
  let lvto := match refVis with | some v => decide (v < 550) | none => false
  let lvp := match refVis with | some v => decide (v < 400) | none => false
  let rvr125 := match rvrMinAll with | some r => decide (r < 125) | none => false
  let lvtoQualReq := match rvrMinAll with | some r => decide (r < 150) | none => false
  let rvrRequired :=
    match worstVis with
    | some v => if v < 800 then !(detectAnyRvr obsRaw) else false
    | none => false
  let cat2Plus := match rvrMinAll with | some r => decide (r < 450) | none => false
  let cat3Only := match rvrMinAll with | some r => decide (r < 200) | none => false
  let cat3BelowMin := match rvrMinAll with | some r => decide (r < 75) | none => false
  let tempC := parseTempC metarRaw
  let coldcorr := match tempC with | some t => decide (t ≤ 0) | none => false
  let bestX := computeBestCrosswind obsRaw (rwys.getD [])
  let condInfo := inferRunwayCondition metarRaw tafRaw
  let narrow := bestX.narrow = some true
  let xwindLimit :=
    match bestX.xwind with
    | some _ => crosswindLimitKt condInfo.rwyccEst narrow
    | none => none
  let xwindExceed :=
    match bestX.xwind, xwindLimit with
    | some x, some l => decide ((l : ℤ) < x)
    | _, _ => false
  let noOpsLikely := decide (condInfo.rwyccEst < 3)
  { toProhib := toProhib
    tsOrCb := tsOrCb
    heavyPrecip := heavy
    va := va
    lvto := lvto, lvp := lvp, lvtoQualReq := lvtoQualReq, rvr125 := rvr125
    rvrRequired := rvrRequired
    cat2Plus := cat2Plus, cat3Only := cat3Only, cat3BelowMin := cat3BelowMin
    coldcorr := coldcorr
    xwindExceed := xwindExceed
    xwindKt := bestX.xwind
    xwindLimitKt := xwindLimit
    xwindCond := condInfo.cond
    rwyccEst := condInfo.rwyccEst
    noOpsLikely := noOpsLikely
    xwindNarrow := bestX.narrow
    xwindUsedSpdKt := bestX.usedSpd
    xwindWindDir := bestX.windDir }

/-! ### Station pipeline (app.js `deriveStation`) -/

/-- The station-level RVR minimum of `deriveStation`: minimum across all RVR
groups of both reports. -/
def stationRvrMinAll (metarRaw tafRaw : String) : Option ℕ :=
  minN? (extractRvrMeters metarRaw ++ extractRvrMeters tafRaw)

/-- The station-level worst visibility of `deriveStation`: minimum of the
METAR visibility and the minimum over all TAF visibility groups. -/
def stationWorstVis (metarRaw tafRaw : String) : Option ℕ :=
  minO (parseVisibilityMeters metarRaw) (minN? (extractAllVisibilityMetersFromTAF tafRaw))

/-- The OM advisory of one station as `deriveStation` computes it
(`st.om = computeOmPolicy(st, met, taf, worstVis, rvrMinAll)`). -/
noncomputable def omForStation (metarRaw tafRaw : String) (rwys : Option (List Runway)) :
    OmFlags :=
  computeOmFlags metarRaw tafRaw (computeScores metarRaw) (computeScores tafRaw)
    (stationWorstVis metarRaw tafRaw) (stationRvrMinAll metarRaw tafRaw) rwys

/-! ### Hierarchical band reporting (app.js `catState` and `minimaState`) -/

inductive CatBand
  | cat3min
  | cat3only
  | cat2plus
  deriving Repr, DecidableEq

/-- Embedding of `catState(om)`: the single tightest CAT band reported. -/
def catState (om : OmFlags) : Option CatBand :=
  if om.cat3BelowMin then some .cat3min
  else if om.cat3Only then some .cat3only
  else if om.cat2Plus then some .cat2plus
  else none

inductive MinimaBand
  | rvr125
  | lvto150
  | lvp
  | lvto
  deriving Repr, DecidableEq

/-- Embedding of `minimaState(om)`: the single tightest LVO band reported. -/
def minimaState (om : OmFlags) : Option MinimaBand :=
  if om.rvr125 then some .rvr125
  else if om.lvtoQualReq then some .lvto150
  else if om.lvp then some .lvp
  else if om.lvto then some .lvto
  else none

/-! ### Helper lemmas -/

theorem minN?_cons (v : ℕ) (l : List ℕ) : minN? (v :: l) = minO (some v) (minN? l) := by
  cases h : minN? l <;> simp [minN?, minO, h]

theorem minN?_ne_none {l : List ℕ} (h : l ≠ []) : ∃ m, minN? l = some m := by
  cases l with
  | nil => exact absurd rfl h
  | cons v rest => exact ⟨_, rfl⟩

/-- The source's `detectHeavyPrecipTOProhib` is exactly the presence of one of
the eight heavy-precipitation tokens. -/
theorem detectHeavy_eq (raw : String) :
    detectHeavyPrecipTOProhib raw = heavyTokenOccurs raw := by
  simp only [detectHeavyPrecipTOProhib, heavyPrecipMatches, heavyTokenOccurs]
  generalize hasPatRB (upStr raw.data) (strL "+SN") = b1
  generalize hasPatRB (upStr raw.data) (strL "+GS") = b2
  generalize hasPatRB (upStr raw.data) (strL "+SG") = b3
  generalize hasPatRB (upStr raw.data) (strL "+PL") = b4
  generalize hasPatRB (upStr raw.data) (strL "+FZRA") = b5
  generalize hasPatWB (upStr raw.data) (strL "FZRA") = b6
  generalize hasPatRB (upStr raw.data) (strL "+GR") = b7
  generalize hasPatWB (upStr raw.data) (strL "GR") = b8
  cases b1 <;> cases b2 <;> cases b3 <;> cases b4 <;>
    cases b5 <;> cases b6 <;> cases b7 <;> cases b8 <;> rfl

/-- The worked-scenario METAR of the spec. -/
def scenarioMETAR : String :=
  "KXYZ 241200Z 27015G25KT 1/4SM R27/0400 -SN BKN003 M02/M05 A2990"

/-- A METAR whose only convective signal is a thunderstorm with CB cloud (its
station identifier even ends in TS); it carries no heavy-precipitation token. -/
def tsOnlyMETAR : String := "LGTS 251200Z 18010KT 9999 TS SCT030CB 15/10 Q1015"

/-! ### Claim theorems -/

/-- C1: for every pair of reports for one station, the OM policy evaluator
sets `toProhibited` to true iff a heavy-precipitation token from
{+SN, +GS, +SG, +PL, FZRA, +FZRA, GR, +GR} occurs in either report's text;
the equality holds for all other inputs of the evaluator, so the flag is
independent of every other computation, and a report with thunderstorm and
CB but no heavy-precipitation token does not set it. -/
theorem C1_toProhibited_iff_heavy_precip (metarRaw tafRaw : String)
    (met taf : ScoreBundle) (worstVis rvrMinAll : Option ℕ)
    (rwys : Option (List Runway)) :
    ((computeOmFlags metarRaw tafRaw met taf worstVis rvrMinAll rwys).toProhib =
      (heavyTokenOccurs metarRaw || heavyTokenOccurs tafRaw)) ∧
    (hazardFlags tsOnlyMETAR).ts = true ∧
    (hazardFlags tsOnlyMETAR).cb = true ∧
    (omForStation tsOnlyMETAR "" none).toProhib = false ∧
    (omForStation tsOnlyMETAR "" none).tsOrCb = true := by
  refine ⟨?_, rfl, rfl, rfl, rfl⟩
  show (detectHeavyPrecipTOProhib metarRaw || detectHeavyPrecipTOProhib tafRaw) = _
  rw [detectHeavy_eq, detectHeavy_eq]

/-- C2: the reference visibility is the RVR minimum whenever an RVR group is
present in either report, else the worst extracted visibility; `lvto` and
`lvp` compare it strictly against 550 and 400; on the worked scenario (RVR
minimum exactly 400) `lvto` is true and `lvp` is false. -/
theorem C2_reference_visibility (metarRaw tafRaw : String) (met taf : ScoreBundle)
    (rwys : Option (List Runway)) :
    ((extractRvrMeters metarRaw ++ extractRvrMeters tafRaw) ≠ [] →
      refVisOf (stationWorstVis metarRaw tafRaw) (stationRvrMinAll metarRaw tafRaw) =
        minN? (extractRvrMeters metarRaw ++ extractRvrMeters tafRaw)) ∧
    ((extractRvrMeters metarRaw ++ extractRvrMeters tafRaw) = [] →
      refVisOf (stationWorstVis metarRaw tafRaw) (stationRvrMinAll metarRaw tafRaw) =
        stationWorstVis metarRaw tafRaw) ∧
    ((computeOmFlags metarRaw tafRaw met taf (stationWorstVis metarRaw tafRaw)
        (stationRvrMinAll metarRaw tafRaw) rwys).lvto =
      (match refVisOf (stationWorstVis metarRaw tafRaw)
          (stationRvrMinAll metarRaw tafRaw) with
       | some v => decide (v < 550)
       | none => false)) ∧
    ((computeOmFlags metarRaw tafRaw met taf (stationWorstVis metarRaw tafRaw)
        (stationRvrMinAll metarRaw tafRaw) rwys).lvp =
      (match refVisOf (stationWorstVis metarRaw tafRaw)
          (stationRvrMinAll metarRaw tafRaw) with
       | some v => decide (v < 400)
       | none => false)) ∧
    stationRvrMinAll scenarioMETAR "" = some 400 ∧
    (omForStation scenarioMETAR "" none).lvto = true ∧
    (omForStation scenarioMETAR "" none).lvp = false := by
  refine ⟨?_, ?_, rfl, rfl, rfl, rfl, rfl⟩
  · intro h
    obtain ⟨m, hm⟩ := minN?_ne_none h
    simp [stationRvrMinAll, refVisOf, hm]
  · intro h
    simp [stationRvrMinAll, refVisOf, h, minN?]

/-- C4: for every station whose RVR minimum is strictly below 75, the
reported CAT band (`catState`) is exactly `cat3BelowMin` and no other, even
though all three underlying threshold flags hold; the hierarchy surfaces
only the tightest band. -/
theorem C4_cat_band_reported_unique (metarRaw tafRaw : String)
    (rwys : Option (List Runway)) (r : ℕ)
    (h1 : stationRvrMinAll metarRaw tafRaw = some r) (h2 : r < 75) :
    catState (omForStation metarRaw tafRaw rwys) = some CatBand.cat3min ∧
    catState (omForStation metarRaw tafRaw rwys) ≠ some CatBand.cat3only ∧
    catState (omForStation metarRaw tafRaw rwys) ≠ some CatBand.cat2plus ∧
    (omForStation metarRaw tafRaw rwys).cat3BelowMin = true ∧
    (omForStation metarRaw tafRaw rwys).cat3Only = true ∧
    (omForStation metarRaw tafRaw rwys).cat2Plus = true := by
  have e3 : (omForStation metarRaw tafRaw rwys).cat3BelowMin = true := by
    show (match stationRvrMinAll metarRaw tafRaw with
          | some x => decide (x < 75) | none => false) = true
    rw [h1]; simpa using h2
  have e2 : (omForStation metarRaw tafRaw rwys).cat3Only = true := by
    show (match stationRvrMinAll metarRaw tafRaw with
          | some x => decide (x < 200) | none => false) = true
    rw [h1]; simp; omega
  have e1 : (omForStation metarRaw tafRaw rwys).cat2Plus = true := by
    show (match stationRvrMinAll metarRaw tafRaw with
          | some x => decide (x < 450) | none => false) = true
    rw [h1]; simp; omega
  have ec : catState (omForStation metarRaw tafRaw rwys) = some CatBand.cat3min := by
    unfold catState
    rw [e3]
    simp
  exact ⟨ec, by rw [ec]; simp, by rw [ec]; simp, e3, e2, e1⟩

/-- C4 witness: a station with RVR minimum 50 m reports exactly the
`cat3BelowMin` band. -/
theorem C4_cat_band_reported_unique_witness :
    catState (omForStation "R27/0050" "" none) = some CatBand.cat3min :=
  (C4_cat_band_reported_unique "R27/0050" "" none 50 (by rfl) (by decide)).1

/-- With an empty runway list, `computeBestCrosswind` delivers no crosswind,
no best runway, no width and no narrow flag. -/
theorem computeBestCrosswind_nil (raw : String) :
    ∃ u w', computeBestCrosswind raw [] = ⟨none, none, none, none, u, w'⟩ := by
  unfold computeBestCrosswind
  rcases parseWindKt raw with ⟨d, s, g⟩
  rcases d with _ | d <;> rcases s with _ | s <;> exact ⟨_, _, rfl⟩

/-- C6 counterexample: for a station with a parsable wind and no runway
geometry, `crosswindKt` and `crosswindLimitKt` are indeed absent but
`crosswindExceed` is delivered as the boolean `false`, not as an absent
value — refuting the claim that all crosswind fields are absent rather
than false. -/
theorem C6_crosswind_counterexample :
    (omForStation "EGLL 241200Z 27015KT 9999 15/10 Q1015" "" none).xwindKt = none ∧
    (omForStation "EGLL 241200Z 27015KT 9999 15/10 Q1015" "" none).xwindLimitKt = none ∧
    (omForStation "EGLL 241200Z 27015KT 9999 15/10 Q1015" "" none).xwindUsedSpdKt = some 15 ∧
    (omForStation "EGLL 241200Z 27015KT 9999 15/10 Q1015" "" none).xwindExceed = false :=
  ⟨rfl, rfl, rfl, rfl⟩

/-- C6 amended: when the runway geometry lookup supplies no runway ends
(no map entry, or an empty list), the computation degrades without error:
`crosswindKt`, `crosswindLimitKt` and the narrow flag are absent, while
`crosswindExceed` defaults to the boolean `false` (it is not absent). -/
theorem C6_crosswind_absent_without_geometry (metarRaw tafRaw : String)
    (met taf : ScoreBundle) (worstVis rvrMinAll : Option ℕ)
    (rwys : Option (List Runway)) (h : rwys.getD [] = []) :
    (computeOmFlags metarRaw tafRaw met taf worstVis rvrMinAll rwys).xwindKt = none ∧
    (computeOmFlags metarRaw tafRaw met taf worstVis rvrMinAll rwys).xwindLimitKt = none ∧
    (computeOmFlags metarRaw tafRaw met taf worstVis rvrMinAll rwys).xwindNarrow = none ∧
    (computeOmFlags metarRaw tafRaw met taf worstVis rvrMinAll rwys).xwindExceed = false := by
  obtain ⟨u, w', hx⟩ := computeBestCrosswind_nil (if metarRaw ≠ "" then metarRaw else tafRaw)
  refine ⟨?_, ?_, ?_, ?_⟩
  · show (computeBestCrosswind (if metarRaw ≠ "" then metarRaw else tafRaw)
        (rwys.getD [])).xwind = none
    rw [h, hx]
  · show (match (computeBestCrosswind (if metarRaw ≠ "" then metarRaw else tafRaw)
        (rwys.getD [])).xwind with
      | some _ => crosswindLimitKt (inferRunwayCondition metarRaw tafRaw).rwyccEst
          ((computeBestCrosswind (if metarRaw ≠ "" then metarRaw else tafRaw)
            (rwys.getD [])).narrow = some true)
      | none => none) = none
    rw [h, hx]
  · show (computeBestCrosswind (if metarRaw ≠ "" then metarRaw else tafRaw)
        (rwys.getD [])).narrow = none
    rw [h, hx]
  · show (match (computeBestCrosswind (if metarRaw ≠ "" then metarRaw else tafRaw)
        (rwys.getD [])).xwind,
        (match (computeBestCrosswind (if metarRaw ≠ "" then metarRaw else tafRaw)
          (rwys.getD [])).xwind with
         | some _ => crosswindLimitKt (inferRunwayCondition metarRaw tafRaw).rwyccEst
             ((computeBestCrosswind (if metarRaw ≠ "" then metarRaw else tafRaw)
               (rwys.getD [])).narrow = some true)
         | none => none) with
      | some x, some l => decide ((l : ℤ) < x)
      | _, _ => false) = false
    rw [h, hx]

/-- C6 witness: the degradation theorem applied to a concrete station with
no runway-geometry entry. -/
theorem C6_crosswind_absent_without_geometry_witness :
    (computeOmFlags "EGLL 241200Z 27015KT 9999 15/10 Q1015" ""
      (computeScores "EGLL 241200Z 27015KT 9999 15/10 Q1015") (computeScores "")
      (some 10000) none none).xwindKt = none :=
  (C6_crosswind_absent_without_geometry "EGLL 241200Z 27015KT 9999 15/10 Q1015" ""
    (computeScores "EGLL 241200Z 27015KT 9999 15/10 Q1015") (computeScores "")
    (some 10000) none none rfl).1

/-- C8: the runway-condition estimate follows the fixed priority order
SEVERE (RWYCC 2) over CONTAM (RWYCC 3) over WET (RWYCC 5) over DRY
(RWYCC 6); a report with both snow and rain is CONTAM; and `noOpsLikely`
holds exactly when the estimated RWYCC is strictly below 3. -/
theorem C8_runway_condition_priority (metarRaw tafRaw : String)
    (met taf : ScoreBundle) (worstVis rvrMinAll : Option ℕ)
    (rwys : Option (List Runway)) :
    ((inferRunwayCondition metarRaw tafRaw).cond = RwyCond.SEVERE ↔
      severePresent (upCat metarRaw tafRaw) = true) ∧
    ((inferRunwayCondition metarRaw tafRaw).cond = RwyCond.CONTAM ↔
      severePresent (upCat metarRaw tafRaw) = false ∧
      snowPresent (upCat metarRaw tafRaw) = true) ∧
    ((inferRunwayCondition metarRaw tafRaw).cond = RwyCond.WET ↔
      severePresent (upCat metarRaw tafRaw) = false ∧
      snowPresent (upCat metarRaw tafRaw) = false ∧
      wetPresent (upCat metarRaw tafRaw) = true) ∧
    ((inferRunwayCondition metarRaw tafRaw).cond = RwyCond.DRY ↔
      severePresent (upCat metarRaw tafRaw) = false ∧
      snowPresent (upCat metarRaw tafRaw) = false ∧
      wetPresent (upCat metarRaw tafRaw) = false) ∧
    ((inferRunwayCondition metarRaw tafRaw).rwyccEst =
      match (inferRunwayCondition metarRaw tafRaw).cond with
      | RwyCond.SEVERE => 2
      | RwyCond.CONTAM => 3
      | RwyCond.WET => 5
      | RwyCond.DRY => 6) ∧
    ((computeOmFlags metarRaw tafRaw met taf worstVis rvrMinAll rwys).noOpsLikely =
      decide ((inferRunwayCondition metarRaw tafRaw).rwyccEst < 3)) ∧
    ((inferRunwayCondition metarRaw tafRaw).rwyccEst < 3 ↔
      (inferRunwayCondition metarRaw tafRaw).cond = RwyCond.SEVERE) ∧
    inferRunwayCondition "EKCH 241200Z 20010KT 4000 -SN -RA OVC010 01/M01 Q1002" "" =
      ⟨RwyCond.CONTAM, 3⟩ := by
  refine ⟨?_, ?_, ?_, ?_, ?_, rfl, ?_, rfl⟩ <;>
    unfold inferRunwayCondition <;>
    rcases hs : severePresent (upCat metarRaw tafRaw) <;>
    rcases hn : snowPresent (upCat metarRaw tafRaw) <;>
    rcases hw : wetPresent (upCat metarRaw tafRaw) <;>
    simp [hs, hn, hw]

/-- The TAF discount floor over the exact rational equals natural division by
100 after scaling by 85. -/
theorem tafDiscount_eq (s : ℕ) : tafDiscount s = s * 85 / 100 := by
  unfold tafDiscount
  have h : (s : ℚ) * (85 / 100 : ℚ) = ((s * 85 : ℕ) : ℚ) / ((100 : ℕ) : ℚ) := by
    push_cast; ring
  rw [h, Int.floor_toNat, Nat.floor_div_nat, Nat.floor_natCast]

/-- The engine-ice condition spelt out over the extracted fields. -/
theorem engIceOps_eq (met : ScoreBundle) :
    engIceOps met = ((met.vis.any fun v => decide (v ≤ 150)) && met.hz.fzfg) := by
  unfold engIceOps
  rcases met.vis with _ | v <;> simp [Option.any]

/-- C5: the combined severity score is `max(METAR score, floor(TAF score ×
0.85))`, forced to 100 when the METAR shows visibility at most 150 m with
freezing fog, and the base alert from the combined score is CRIT at 70,
HIGH at 45, MED at 20 and OK below. -/
theorem C5_combined_score_and_base_alert (metarRaw tafRaw : String) :
    (severityBase metarRaw tafRaw =
      if ((computeScores metarRaw).vis.any fun v => decide (v ≤ 150)) &&
          (computeScores metarRaw).hz.fzfg then 100
      else max (computeScores metarRaw).score ((computeScores tafRaw).score * 85 / 100)) ∧
    baseAlert metarRaw tafRaw = alertFromScore (severityBase metarRaw tafRaw) ∧
    (∀ s : ℕ,
      (alertFromScore s = Alert.CRIT ↔ 70 ≤ s) ∧
      (alertFromScore s = Alert.HIGH ↔ 45 ≤ s ∧ s < 70) ∧
      (alertFromScore s = Alert.MED ↔ 20 ≤ s ∧ s < 45) ∧
      (alertFromScore s = Alert.OK ↔ s < 20)) := by
  refine ⟨?_, rfl, ?_⟩
  · simp only [severityBase]
    rw [engIceOps_eq, tafDiscount_eq]
  · intro s
    unfold alertFromScore
    refine ⟨?_, ?_, ?_, ?_⟩ <;> split_ifs <;> simp_all <;> omega

/-- A thoroughly malformed report text on which no extractor finds a field. -/
def malformedInput : String := "%%% ??? ///// ab/cd 12/345/678"

/-- C9: every extractor is a total function returning an absent or empty
result on inputs where its field does not occur (shown on the empty string
and on a malformed text), the per-report score stays bounded for every
input, and downstream OM computations treat absent visibility, RVR and
temperature as contributing nothing (false flags, not failures). -/
theorem C9_extractors_total_and_absent_handling (raw metarRaw tafRaw : String)
    (met taf : ScoreBundle) (rwys : Option (List Runway)) :
    (computeScores raw).score ≤ 100 ∧
    parseVisibilityMeters malformedInput = none ∧
    extractRvrMeters malformedInput = [] ∧
    ceilingFt malformedInput = none ∧
    gustMaxKt malformedInput = none ∧
    parseTempC malformedInput = none ∧
    hazardFlags malformedInput = noHz ∧
    extractAllVisibilityMetersFromTAF malformedInput = [] ∧
    parseVisibilityMeters "" = none ∧
    extractRvrMeters "" = [] ∧
    ceilingFt "" = none ∧
    gustMaxKt "" = none ∧
    parseTempC "" = none ∧
    hazardFlags "" = noHz ∧
    extractAllVisibilityMetersFromTAF "" = [] ∧
    (computeScores "").score = 0 ∧
    (computeOmFlags metarRaw tafRaw met taf none none rwys).lvto = false ∧
    (computeOmFlags metarRaw tafRaw met taf none none rwys).lvp = false ∧
    (computeOmFlags metarRaw tafRaw met taf none none rwys).lvtoQualReq = false ∧
    (computeOmFlags metarRaw tafRaw met taf none none rwys).rvr125 = false ∧
    (computeOmFlags metarRaw tafRaw met taf none none rwys).rvrRequired = false ∧
    (computeOmFlags metarRaw tafRaw met taf none none rwys).cat2Plus = false ∧
    (computeOmFlags metarRaw tafRaw met taf none none rwys).cat3Only = false ∧
    (computeOmFlags metarRaw tafRaw met taf none none rwys).cat3BelowMin = false ∧
    (parseTempC metarRaw = none →
      (computeOmFlags metarRaw tafRaw met taf none none rwys).coldcorr = false) := by
  refine ⟨Nat.min_le_left _ _, rfl, rfl, rfl, rfl, rfl, rfl, rfl, rfl, rfl, rfl, rfl,
    rfl, rfl, rfl, rfl, rfl, rfl, rfl, rfl, rfl, rfl, rfl, rfl, ?_⟩
  intro h
  show (match parseTempC metarRaw with | some t => decide (t ≤ 0) | none => false) = false
  rw [h]

/-- C10: the RVR extractor also accepts US-style `FT`-suffixed groups and
converts them from feet to meters (`Math.round(v * 0.3048)`) before the
minimum across groups is taken, while suffix-less groups are taken as
meters unchanged; the conversion is within half a meter of the exact
product. -/
theorem C10_rvr_feet_conversion :
    extractRvrMeters "R11/1200FT" = [366] ∧
    extractRvrMeters "R11/1200" = [1200] ∧
    extractRvrMeters "R11/1200FT R29/0600" = [366, 600] ∧
    stationRvrMinAll "R11/1200FT R29/0600" "" = some 366 ∧
    ftToM 1200 = 366 ∧
    (∀ v : ℕ, |((ftToM v : ℚ)) - (v : ℚ) * (3048 / 10000)| ≤ 1 / 2) := by
  have h1200 : ftToM 1200 = 366 := by
    unfold ftToM jsRoundQ
    have hc : ((1200 : ℕ) : ℚ) * (3048 / 10000) + 1 / 2 = 36626 / 100 := by
      push_cast; norm_num
    rw [hc]
    have hf : (⌊(36626 / 100 : ℚ)⌋) = 366 := by
      rw [Int.floor_eq_iff]; norm_num
    rw [hf]
    rfl
  have e1 : extractRvrMeters "R11/1200FT" = [ftToM 1200] := by rfl
  have e2 : extractRvrMeters "R11/1200FT R29/0600" = [ftToM 1200, 600] := by rfl
  have e3 : stationRvrMinAll "R11/1200FT R29/0600" "" =
      some (min (ftToM 1200) 600) := by rfl
  refine ⟨by rw [e1, h1200], by rfl, by rw [e2, h1200], ?_, h1200, ?_⟩
  · rw [e3, h1200]; norm_num
  intro v
  unfold ftToM jsRoundQ
  set x : ℚ := (v : ℚ) * (3048 / 10000) with hx
  have h0 : (0 : ℚ) ≤ x := by rw [hx]; positivity
  have hfl : (0 : ℤ) ≤ ⌊x + 1 / 2⌋ := by
    apply Int.floor_nonneg.mpr; linarith
  have hcast : ((⌊x + 1 / 2⌋.toNat : ℕ) : ℚ) = ((⌊x + 1 / 2⌋ : ℤ) : ℚ) := by
    exact_mod_cast congrArg (fun z : ℤ => (z : ℚ)) (Int.toNat_of_nonneg hfl)
  rw [hcast]
  have h1 : ((⌊x + 1 / 2⌋ : ℤ) : ℚ) ≤ x + 1 / 2 := Int.floor_le _
  have h2 : x + 1 / 2 < ((⌊x + 1 / 2⌋ : ℤ) : ℚ) + 1 := Int.lt_floor_add_one _
  rw [abs_le]
  constructor <;> linarith

/-! ### Visibility token lemmas (C3) -/

theorem digit_ne {x y : Char} (hx : x.isDigit = true) (hy : y.isDigit = false) :
    x ≠ y := by
  intro h
  rw [h] at hx
  rw [hx] at hy
  cases hy

theorem stripLeadM_of_digits (t : List Char) (hd : ∀ x ∈ t, x.isDigit = true) :
    stripLeadM t = t := by
  unfold stripLeadM
  cases t with
  | nil => rfl
  | cons c r =>
    have hc : c ≠ 'M' := digit_ne (hd c (by simp)) (by decide)
    simp [hc]

theorem fracSMShape_of_digits (t : List Char) (hd : ∀ x ∈ t, x.isDigit = true) :
    fracSMShape t = none := by
  have h1 : stripLeadM t = t := stripLeadM_of_digits t hd
  have h2 : t.dropWhile Char.isDigit = [] := List.dropWhile_eq_nil_iff.mpr hd
  simp only [fracSMShape, h1, h2]
  rcases h3 : (t.takeWhile Char.isDigit).isEmpty <;> simp [h3]

/-- A standalone 4-digit token decodes to its digit value, with 9999 mapped
to 10000 (the heart of the spec's 4-digit decoding rule). -/
theorem visTokVal_four_digit (t : List Char) (hlen : t.length = 4)
    (hdig : t.all Char.isDigit = true) :
    visTokVal t = some (if natOfDigits t = 9999 then 10000 else natOfDigits t) := by
  have hd : ∀ x ∈ t, x.isDigit = true := by simpa [List.all_eq_true] using hdig
  rcases t with _ | ⟨a, t⟩; · simp at hlen
  rcases t with _ | ⟨b, t⟩; · simp at hlen
  rcases t with _ | ⟨c, t⟩; · simp at hlen
  rcases t with _ | ⟨d, t⟩; · simp at hlen
  rcases t with _ | ⟨e, t⟩
  case cons.cons.cons.cons.cons => simp at hlen
  have ha : a.isDigit = true := hd a (by simp)
  have hb : b.isDigit = true := hd b (by simp)
  have hc : c.isDigit = true := hd c (by simp)
  have hd4 : d.isDigit = true := hd d (by simp)
  have hfrac : fracSMShape [a, b, c, d] = none := fracSMShape_of_digits _ hd
  have htime : timeRangeShape [a, b, c, d] = false := rfl
  have haR : a ≠ 'R' := digit_ne ha (by decide)
  have hrvr : rvrStartShape [a, b, c, d] = false := by
    simp [rvrStartShape, haR]
  have na : a ≠ '/' := digit_ne ha (by decide)
  have nb : b ≠ '/' := digit_ne hb (by decide)
  have nc : c ≠ '/' := digit_ne hc (by decide)
  have nd : d ≠ '/' := digit_ne hd4 (by decide)
  have hvis4 : vis4Shape [a, b, c, d] = true := by
    simp [vis4Shape, ha, hb, hc, hd4]
  have htake : List.take 4 [a, b, c, d] = [a, b, c, d] := rfl
  simp [visTokVal, hfrac, htime, hrvr, hvis4, htake,
    na.symm, nb.symm, nc.symm, nd.symm]

/-- Every `/`-containing token that is not a statute-mile fraction is
excluded from visibility scanning. -/
theorem visTokVal_slash_excluded (t : List Char) (h1 : t.contains '/' = true)
    (h2 : fracSMShape t = none) : visTokVal t = none := by
  have h1m : '/' ∈ t := by simpa using h1
  rcases h3 : timeRangeShape t <;> rcases h4 : rvrStartShape t <;>
    simp [visTokVal, h2, h3, h4, h1m]

/-- The METAR visibility scan computes exactly the minimum of the values the
TAF scan collects: the two source loops agree group by group. -/
theorem visMinScan_eq_min (toks : List (List Char)) :
    visMinScan toks = minN? (visValsScan toks) := by
  induction toks using visMinScan.induct with
  | case1 => rfl
  | case2 t0 =>
      cases h : visTokVal (upStr t0) <;> simp [visMinScan, visValsScan, minN?, h]
  | case3 t0 t1 rest2 v hsplit ih =>
      simp [visMinScan, visValsScan, hsplit, ih, minN?_cons]
  | case4 t0 t1 rest2 hsplit ih =>
      cases hv : visTokVal (upStr t0) <;>
        simp [visMinScan, visValsScan, hsplit, hv, ih, minN?_cons, minO]

/-- A TAF with a 9999 group in one period and a 1600 group in another. -/
def tafTwoVisScenario : String :=
  "TAF KAAA 241100Z 2412/2518 24010KT 9999 BKN030 BECMG 2414/2416 1600 BR"

/-- C3: a qualifying standalone 4-digit token decodes to its value (9999 to
10000), statute-mile tokens are converted, `/`-containing tokens that are
not statute-mile fractions are excluded (TAF validity ranges, RVR groups),
the extractor returns the minimum of all qualifying values, the whole TAF
text is scanned, and the worked TAF with 9999 and 1600 decodes to 1600. -/
theorem C3_visibility_extraction :
    (∀ t : List Char, t.length = 4 → t.all Char.isDigit = true →
      visTokVal t = some (if natOfDigits t = 9999 then 10000 else natOfDigits t)) ∧
    (∀ t : List Char, t.contains '/' = true → fracSMShape t = none →
      visTokVal t = none) ∧
    (∀ raw : String, raw ≠ "" → hasPatWB raw.data (strL "CAVOK") = false →
      parseVisibilityMeters raw = minN? (visValsScan (toksOf raw.data))) ∧
    visTokVal (strL "1/4SM") = some 402 ∧
    visTokVal (strL "3012/3112") = none ∧
    visTokVal (strL "R27/0600") = none ∧
    extractAllVisibilityMetersFromTAF tafTwoVisScenario = [10000, 1600] ∧
    minN? (extractAllVisibilityMetersFromTAF tafTwoVisScenario) = some 1600 := by
  have e14 : visTokVal (strL "1/4SM") =
      some (roundMi (((1 : ℕ) : ℚ) / ((4 : ℕ) : ℚ))) := by rfl
  have hr : roundMi (((1 : ℕ) : ℚ) / ((4 : ℕ) : ℚ)) = 402 := by
    unfold roundMi jsRoundQ mileM
    have hc : ((1 : ℕ) : ℚ) / ((4 : ℕ) : ℚ) * (160934 / 100) + 1 / 2 = 80567 / 200 := by
      push_cast; norm_num
    rw [hc]
    have hf : (⌊(80567 / 200 : ℚ)⌋) = 402 := by
      rw [Int.floor_eq_iff]; norm_num
    rw [hf]; rfl
  refine ⟨visTokVal_four_digit, visTokVal_slash_excluded, ?_,
    by rw [e14, hr], by rfl, by rfl, by rfl, by rfl⟩
  intro raw h1 h2
  unfold parseVisibilityMeters
  simp [h1, h2, visMinScan_eq_min]

/-! ### Crosswind lemmas (C7) -/

theorem angleDiff_le_180 (a b : ℕ) : angleDiff a b ≤ 180 := by
  simp only [angleDiff, norm360]
  split <;> omega

theorem pickBest_ne_none (cs : List Cand) (b0 : Cand) :
    pickBest (some b0) cs ≠ none := by
  induction cs generalizing b0 with
  | nil => simp [pickBest]
  | cons c rest ih =>
    simp only [pickBest]
    split <;> apply ih

/-- The fold of the source keeps a minimal candidate: the result is among the
candidates (or the seed) and its crosswind is a lower bound of all of them. -/
theorem pickBest_min (cs : List Cand) (b0 c : Cand)
    (h : pickBest (some b0) cs = some c) :
    (c ∈ cs ∨ c = b0) ∧ c.x ≤ b0.x ∧ ∀ d ∈ cs, c.x ≤ d.x := by
  induction cs generalizing b0 with
  | nil =>
    simp only [pickBest, Option.some.injEq] at h
    subst h
    simp
  | cons c0 rest ih =>
    simp only [pickBest] at h
    by_cases hlt : c0.x < b0.x
    · rw [if_pos hlt] at h
      obtain ⟨hmem, hle, hall⟩ := ih c0 h
      refine ⟨?_, ?_, ?_⟩
      · rcases hmem with hm | hm
        · exact Or.inl (List.mem_cons_of_mem _ hm)
        · exact Or.inl (by rw [hm]; exact List.mem_cons_self _ _)
      · exact le_trans hle (le_of_lt hlt)
      · intro d hd
        rcases List.mem_cons.mp hd with hd | hd
        · rw [hd]; exact hle
        · exact hall d hd
    · rw [if_neg hlt] at h
      obtain ⟨hmem, hle, hall⟩ := ih b0 h
      refine ⟨?_, hle, ?_⟩
      · rcases hmem with hm | hm
        · exact Or.inl (List.mem_cons_of_mem _ hm)
        · exact Or.inr hm
      · intro d hd
        rcases List.mem_cons.mp hd with hd | hd
        · rw [hd]; exact le_trans hle (not_lt.mp hlt)
        · exact hall d hd

/-- C7: when the wind parses to a direction and speed and the runway list
yields at least one heading, the computed crosswind is the minimum over all
runway ends of `round(max(speed, gust) * |sin(angleDiff in radians)|)`; the
angular difference is always wrapped to at most 180; and the worked
scenario gives 0 kt against the reciprocal heading 090 and 30 kt against
heading 000 for wind 270/30. -/
theorem C7_crosswind_minimum (raw : String) (rwys : List Runway) (dir spd : ℕ)
    (gst : Option ℕ)
    (h1 : parseWindKt raw = ⟨some dir, some spd, gst⟩)
    (h2 : candsOf (max spd (gst.getD 0)) dir rwys ≠ []) :
    (∃ m, (computeBestCrosswind raw rwys).xwind = some m ∧
      m ∈ (candsOf (max spd (gst.getD 0)) dir rwys).map Cand.x ∧
      ∀ v ∈ (candsOf (max spd (gst.getD 0)) dir rwys).map Cand.x, m ≤ v) ∧
    (∀ s d h, xwindVal s d h =
      jsRoundR ((s : ℝ) * |Real.sin (toRad (angleDiff d h))|)) ∧
    (∀ a b, angleDiff a b ≤ 180) ∧
    xwindVal 30 270 90 = 0 ∧
    xwindVal 30 270 0 = 30 := by
  refine ⟨?_, fun s d h => rfl, angleDiff_le_180, ?_, ?_⟩
  · have hrw : rwys ≠ [] := by
      intro hnil
      exact h2 (by rw [hnil]; rfl)
    have hrwb : rwys.isEmpty = false := by
      cases rwys with
      | nil => exact absurd rfl hrw
      | cons r rs => rfl
    obtain ⟨c0, cs', hcands⟩ :
        ∃ c0 cs', candsOf (max spd (gst.getD 0)) dir rwys = c0 :: cs' := by
      cases hcs : candsOf (max spd (gst.getD 0)) dir rwys with
      | nil => exact absurd hcs h2
      | cons c0 cs' => exact ⟨c0, cs', rfl⟩
    cases hp : pickBest (some c0) cs' with
    | none => exact absurd hp (pickBest_ne_none cs' c0)
    | some b =>
      obtain ⟨hmem, hle, hall⟩ := pickBest_min cs' c0 b hp
      refine ⟨b.x, ?_, ?_, ?_⟩
      · simp only [computeBestCrosswind, h1, hrwb, hcands]
        simp [pickBest, hp]
      · rcases hmem with hm | hm
        · exact List.mem_map_of_mem _ (by rw [hcands]; exact List.mem_cons_of_mem _ hm)
        · exact List.mem_map_of_mem _ (by rw [hcands, hm]; exact List.mem_cons_self _ _)
      · intro v hv
        obtain ⟨d, hd, hdx⟩ := List.mem_map.mp hv
        rw [hcands] at hd
        rcases List.mem_cons.mp hd with hd | hd
        · rw [← hdx, hd]
          exact hle
        · rw [← hdx]
          exact hall d hd
  · have hang : angleDiff 270 90 = 180 := by decide
    have ht : toRad 180 = Real.pi := by
      unfold toRad
      push_cast
      ring
    unfold xwindVal
    rw [hang, ht, Real.sin_pi, abs_zero, mul_zero]
    unfold jsRoundR
    norm_num
  · have hang : angleDiff 270 0 = 90 := by decide
    have ht : toRad 90 = Real.pi / 2 := by
      unfold toRad
      push_cast
      ring
    unfold xwindVal
    rw [hang, ht, Real.sin_pi_div_two, abs_one, mul_one]
    unfold jsRoundR
    rw [show ((30 : ℕ) : ℝ) + 1 / 2 = 61 / 2 by norm_num]
    rw [Int.floor_eq_iff]; norm_num

/-- C7 witness: the crosswind theorem applied to wind `27030KT` and a single
runway end with heading 090, its hypotheses discharged concretely. -/
theorem C7_crosswind_minimum_witness : xwindVal 30 270 90 = 0 :=
  (C7_crosswind_minimum "27030KT" [⟨some 90, none, none⟩] 270 30 none (by rfl)
    (by simp [candsOf, headingsOf])).2.2.2.1

end Wxom
